import Mathlib

/-!
Verification development for the storage-simulation core of the
Zonnepanelen_check repository.

The Python sources are shallowly embedded: floating point numbers are
modelled by `ℚ`, dictionaries of per-step results by structures, and the
imperative per-row loops by structural recursion over lists.  Divisions
that can raise `ZeroDivisionError` in Python are modelled with an
`Except`-valued checked division; the Python local variable
`energy_needed_with_efficiency` of `BoilerCalculator.calculate`, which is
only assigned inside an `if` branch, is modelled by an `Option ℚ` state
field (`none` = not yet bound, so reading it raises).
-/

/-! ### StorageSimulation (src/storage_calculator.py, lines 90-202) -/

/-- Constructor arguments of `StorageSimulation.__init__`. -/
structure BatParams where
  capacityKwh : ℚ
  efficiency : ℚ
  maxChargeRate : ℚ
  maxDischargeRate : ℚ
  minSocPercent : ℚ
  maxSocPercent : ℚ

/-- `self.min_soc_kwh = capacity_kwh * (min_soc_percent / 100)`. -/
def BatParams.minSocKwh (p : BatParams) : ℚ :=
  p.capacityKwh * (p.minSocPercent / 100)

/-- `self.max_soc_kwh = capacity_kwh * (max_soc_percent / 100)`. -/
def BatParams.maxSocKwh (p : BatParams) : ℚ :=
  p.capacityKwh * (p.maxSocPercent / 100)

/-- Mutable state of a `StorageSimulation` instance. -/
structure BatState where
  stateOfCharge : ℚ
  chargedEnergy : ℚ
  dischargedEnergy : ℚ
  wastedEnergy : ℚ

/-- The state set up at the end of `StorageSimulation.__init__`. -/
def initBatState (p : BatParams) : BatState :=
  { stateOfCharge := p.minSocKwh
    chargedEnergy := 0
    dischargedEnergy := 0
    wastedEnergy := 0 }

/-- `StorageSimulation.reset` (lines 182-187). -/
def BatState.reset (p : BatParams) (_s : BatState) : BatState :=
  { stateOfCharge := p.minSocKwh
    chargedEnergy := 0
    dischargedEnergy := 0
    wastedEnergy := 0 }

/-- The dictionary returned by one call of `simulate_timestep`. -/
structure StepResult where
  stateOfCharge : ℚ
  chargedKwh : ℚ
  dischargedKwh : ℚ
  wastedKwh : ℚ

/-- `StorageSimulation.simulate_timestep` (lines 125-180): updates the
state and returns the per-step result dictionary. -/
def simulateTimestep (p : BatParams) (s : BatState)
    (surplusEnergyWh timeIntervalHours : ℚ) : BatState × StepResult :=
  let surplusEnergyKwh := surplusEnergyWh / 1000
  let maxChargeThisStep :=
    min (p.maxChargeRate * timeIntervalHours) (p.maxSocKwh - s.stateOfCharge)
  let maxDischargeThisStep :=
    min (p.maxDischargeRate * timeIntervalHours) (s.stateOfCharge - p.minSocKwh)
  if 0 < surplusEnergyKwh then
    let chargeAmount := min surplusEnergyKwh maxChargeThisStep
    let actualCharge := chargeAmount * p.efficiency
    let soc := s.stateOfCharge + actualCharge
    let wasted := surplusEnergyKwh - chargeAmount
    ({ stateOfCharge := soc
       chargedEnergy := s.chargedEnergy + chargeAmount
       dischargedEnergy := s.dischargedEnergy
       wastedEnergy := s.wastedEnergy + wasted },
     { stateOfCharge := soc
       chargedKwh := chargeAmount
       dischargedKwh := 0
       wastedKwh := wasted })
  else if surplusEnergyKwh < 0 then
    let energyNeeded := |surplusEnergyKwh|
    let dischargeAmount := min energyNeeded maxDischargeThisStep
    let soc := s.stateOfCharge - dischargeAmount
    ({ stateOfCharge := soc
       chargedEnergy := s.chargedEnergy
       dischargedEnergy := s.dischargedEnergy + dischargeAmount
       wastedEnergy := s.wastedEnergy },
     { stateOfCharge := soc
       chargedKwh := 0
       dischargedKwh := dischargeAmount
       wastedKwh := 0 })
  else
    (s,
     { stateOfCharge := s.stateOfCharge
       chargedKwh := 0
       dischargedKwh := 0
       wastedKwh := 0 })

/-- Driving `simulate_timestep` over a whole series of
(surplus in Wh, interval in hours) pairs, collecting the returned
per-step dictionaries (as `BatteryCalculator.calculate` does row by row). -/
def runSim (p : BatParams) : BatState → List (ℚ × ℚ) → BatState × List StepResult
  | s, [] => (s, [])
  | s, x :: xs =>
    let step := simulateTimestep p s x.1 x.2
    let rest := runSim p step.1 xs
    (rest.1, step.2 :: rest.2)

/-- The dictionary built by `StorageSimulation.get_results` (lines 189-202);
`final_soc_percent` performs an unguarded division by `capacity_kwh`. -/
structure BatResults where
  totalChargedKwh : ℚ
  totalDischargedKwh : ℚ
  totalWastedKwh : ℚ
  finalSocKwh : ℚ
  finalSocPercent : ℚ

/-- Checked division: Python raises `ZeroDivisionError` when the
denominator is zero. -/
def ediv (n d : ℚ) : Except String ℚ :=
  if d = 0 then Except.error "division by zero" else Except.ok (n / d)

/-- `StorageSimulation.get_results`: fails exactly when the division
`state_of_charge / capacity_kwh` has a zero denominator. -/
def getResults (p : BatParams) (s : BatState) : Except String BatResults :=
  match ediv s.stateOfCharge p.capacityKwh with
  | Except.error e => Except.error e
  | Except.ok r =>
      Except.ok
        { totalChargedKwh := s.chargedEnergy
          totalDischargedKwh := s.dischargedEnergy
          totalWastedKwh := s.wastedEnergy
          finalSocKwh := s.stateOfCharge
          finalSocPercent := r * 100 }

/-- Parameters of the worked example in the spec: capacity 1.5 kWh,
efficiency 0.9, charge and discharge rate 1.0 kW, min bound 0. -/
def exampleBatParams : BatParams :=
  { capacityKwh := 3/2
    efficiency := 9/10
    maxChargeRate := 1
    maxDischargeRate := 1
    minSocPercent := 0
    maxSocPercent := 100 }

/-- Surplus series of the worked example, in Wh, with 1-hour steps. -/
def exampleSeries : List (ℚ × ℚ) := [(1500, 1), (2500, 1), (-500, 1)]

/-! ### Lemmas about one simulation step -/

/-- The `state_of_charge` entry of the returned dictionary equals the
state of charge stored in the updated state. -/
theorem simulateTimestep_result_soc (p : BatParams) (s : BatState) (w dt : ℚ) :
    (simulateTimestep p s w dt).2.stateOfCharge
      = (simulateTimestep p s w dt).1.stateOfCharge := by
  simp only [simulateTimestep]
  split_ifs <;> rfl

/-- One step keeps the state of charge inside `[min_soc_kwh, max_soc_kwh]`,
for parameters in their documented ranges. -/
theorem simulateTimestep_soc_bounds (p : BatParams) (s : BatState) (w dt : ℚ)
    (heff0 : 0 ≤ p.efficiency) (heff1 : p.efficiency ≤ 1)
    (hcr : 0 ≤ p.maxChargeRate) (hdr : 0 ≤ p.maxDischargeRate) (hdt : 0 ≤ dt)
    (hlo : p.minSocKwh ≤ s.stateOfCharge) (hhi : s.stateOfCharge ≤ p.maxSocKwh) :
    p.minSocKwh ≤ (simulateTimestep p s w dt).1.stateOfCharge
      ∧ (simulateTimestep p s w dt).1.stateOfCharge ≤ p.maxSocKwh := by
  simp only [simulateTimestep]
  split_ifs with h1 h2
  · -- positive surplus: charge
    set m := min (w / 1000)
      (min (p.maxChargeRate * dt) (p.maxSocKwh - s.stateOfCharge)) with hm
    have hm0 : 0 ≤ m :=
      le_min h1.le (le_min (mul_nonneg hcr hdt) (by linarith))
    have hmhi : m ≤ p.maxSocKwh - s.stateOfCharge :=
      le_trans (min_le_right _ _) (min_le_right _ _)
    have h1' : 0 ≤ m * p.efficiency := mul_nonneg hm0 heff0
    have h2' : m * p.efficiency ≤ m := mul_le_of_le_one_right hm0 heff1
    constructor
    · simpa using by linarith
    · simpa using by linarith
  · -- negative surplus: discharge
    set d := min |w / 1000|
      (min (p.maxDischargeRate * dt) (s.stateOfCharge - p.minSocKwh)) with hd
    have hd0 : 0 ≤ d :=
      le_min (abs_nonneg _) (le_min (mul_nonneg hdr hdt) (by linarith))
    have hdhi : d ≤ s.stateOfCharge - p.minSocKwh :=
      le_trans (min_le_right _ _) (min_le_right _ _)
    constructor
    · simpa using by linarith
    · simpa using by linarith
  · exact ⟨hlo, hhi⟩

/-- Running a series from a state inside the bounds keeps the final state
and every reported state of charge inside the bounds. -/
theorem runSim_soc_bounds (p : BatParams)
    (heff0 : 0 ≤ p.efficiency) (heff1 : p.efficiency ≤ 1)
    (hcr : 0 ≤ p.maxChargeRate) (hdr : 0 ≤ p.maxDischargeRate) :
    ∀ (xs : List (ℚ × ℚ)) (s : BatState), (∀ x ∈ xs, 0 ≤ x.2) →
      p.minSocKwh ≤ s.stateOfCharge → s.stateOfCharge ≤ p.maxSocKwh →
      (p.minSocKwh ≤ (runSim p s xs).1.stateOfCharge
          ∧ (runSim p s xs).1.stateOfCharge ≤ p.maxSocKwh)
        ∧ ∀ r ∈ (runSim p s xs).2,
            p.minSocKwh ≤ r.stateOfCharge ∧ r.stateOfCharge ≤ p.maxSocKwh
  | [], s, _, hlo, hhi => by
      exact ⟨⟨hlo, hhi⟩, by simp [runSim]⟩
  | x :: xs, s, hdt, hlo, hhi => by
      have hstep := simulateTimestep_soc_bounds p s x.1 x.2 heff0 heff1 hcr hdr
        (hdt x (List.mem_cons_self x xs)) hlo hhi
      have hrest := runSim_soc_bounds p heff0 heff1 hcr hdr xs
        (simulateTimestep p s x.1 x.2).1
        (fun y hy => hdt y (List.mem_cons_of_mem x hy)) hstep.1 hstep.2
      refine ⟨hrest.1, ?_⟩
      intro r hr
      simp only [runSim, List.mem_cons] at hr
      rcases hr with hr | hr
      · subst hr
        rw [simulateTimestep_result_soc]
        exact hstep
      · exact hrest.2 r hr

/-! ### Claim theorems: battery -/

/-- C1: Battery bound invariant.  For every surplus series (arbitrary
surplus values, arbitrary non-negative step durations) and every
configuration in its documented ranges (non-negative capacity and rates,
efficiency in `[0, 1]`, `min_soc_percent ≤ max_soc_percent`), starting
from the initial charge `min_soc_kwh`, the state of charge reported
after every call of `simulate_timestep` satisfies
`min_soc_kwh ≤ charge ≤ max_soc_kwh`. -/
theorem battery_bound_invariant (p : BatParams) (xs : List (ℚ × ℚ))
    (hcap : 0 ≤ p.capacityKwh) (hsoc : p.minSocPercent ≤ p.maxSocPercent)
    (heff0 : 0 ≤ p.efficiency) (heff1 : p.efficiency ≤ 1)
    (hcr : 0 ≤ p.maxChargeRate) (hdr : 0 ≤ p.maxDischargeRate)
    (hdt : ∀ x ∈ xs, 0 ≤ x.2) :
    ∀ r ∈ (runSim p (initBatState p) xs).2,
      p.minSocKwh ≤ r.stateOfCharge ∧ r.stateOfCharge ≤ p.maxSocKwh := by
  have hminmax : p.minSocKwh ≤ p.maxSocKwh := by
    have : p.minSocPercent / 100 ≤ p.maxSocPercent / 100 := by linarith
    exact mul_le_mul_of_nonneg_left this hcap
  exact (runSim_soc_bounds p heff0 heff1 hcr hdr xs (initBatState p) hdt
    le_rfl hminmax).2

/-- Witness for C1 at the worked-example configuration: the first step of
the example series reports a state of charge of 0.9 kWh, which lies
within the bounds. -/
theorem battery_bound_invariant_witness :
    exampleBatParams.minSocKwh ≤ (9/10 : ℚ)
      ∧ (9/10 : ℚ) ≤ exampleBatParams.maxSocKwh := by
  have h := battery_bound_invariant exampleBatParams exampleSeries
    (by norm_num [exampleBatParams]) (by norm_num [exampleBatParams])
    (by norm_num [exampleBatParams]) (by norm_num [exampleBatParams])
    (by norm_num [exampleBatParams]) (by norm_num [exampleBatParams])
    (by norm_num [exampleSeries])
    { stateOfCharge := 9/10, chargedKwh := 1, dischargedKwh := 0, wastedKwh := 1/2 }
  refine h ?_
  norm_num [runSim, simulateTimestep, initBatState, exampleBatParams, exampleSeries,
    BatParams.minSocKwh, BatParams.maxSocKwh, min_def, abs]

/-- C2: Battery energy conservation for a single `simulate_timestep`
call.  With positive surplus, `charged_kwh + wasted_kwh` equals the
surplus in kWh exactly; with negative surplus, `discharged_kwh` is at
most `|surplus|` and at most the pre-step `state_of_charge - min_soc_kwh`.
No assumption on the configuration is needed. -/
theorem battery_energy_conservation (p : BatParams) (s : BatState) (w dt : ℚ) :
    (0 < w / 1000 →
      (simulateTimestep p s w dt).2.chargedKwh
        + (simulateTimestep p s w dt).2.wastedKwh = w / 1000)
    ∧ (w / 1000 < 0 →
      (simulateTimestep p s w dt).2.dischargedKwh ≤ |w / 1000|
        ∧ (simulateTimestep p s w dt).2.dischargedKwh
            ≤ s.stateOfCharge - p.minSocKwh) := by
  constructor
  · intro h
    simp only [simulateTimestep, if_pos h]
    ring
  · intro h
    have h' : ¬ (0 < w / 1000) := by linarith
    simp only [simulateTimestep, if_neg h', if_pos h]
    exact ⟨min_le_left _ _, le_trans (min_le_right _ _) (min_le_right _ _)⟩

/-- Witness for C2: at the worked-example configuration, a +1500 Wh step
has `charged + wasted = 1.5` kWh, and a −500 Wh step from the initial
state discharges at most 0.5 kWh and at most the available charge. -/
theorem battery_energy_conservation_witness :
    ((simulateTimestep exampleBatParams (initBatState exampleBatParams) 1500 1).2.chargedKwh
      + (simulateTimestep exampleBatParams (initBatState exampleBatParams) 1500 1).2.wastedKwh
      = (1500 : ℚ) / 1000)
    ∧ (simulateTimestep exampleBatParams (initBatState exampleBatParams) (-500) 1).2.dischargedKwh
        ≤ |(-500 : ℚ) / 1000| := by
  refine ⟨(battery_energy_conservation exampleBatParams (initBatState exampleBatParams)
    1500 1).1 (by norm_num), ?_⟩
  exact ((battery_energy_conservation exampleBatParams (initBatState exampleBatParams)
    (-500) 1).2 (by norm_num)).1

/-- C3 counterexample: on the spec's worked example (capacity 1.5 kWh,
efficiency 0.9, rate 1 kW, 1-hour steps, min bound 0, surplus
+1.5 / +2.5 / −0.5 kWh) the code does NOT yield total charged 1.5 kWh
and final state of charge 0.85 kWh: step 2 is capacity-limited to
`max_soc_kwh - state_of_charge = 0.6` kWh drawn, not 0.5. -/
theorem battery_example_counterexample :
    ¬ ((runSim exampleBatParams (initBatState exampleBatParams) exampleSeries).1.chargedEnergy
          = 3/2
        ∧ (runSim exampleBatParams (initBatState exampleBatParams) exampleSeries).1.dischargedEnergy
            = 1/2
        ∧ (runSim exampleBatParams (initBatState exampleBatParams) exampleSeries).1.stateOfCharge
            = 17/20) := by
  norm_num [runSim, simulateTimestep, initBatState, exampleBatParams, exampleSeries,
    BatParams.minSocKwh, BatParams.maxSocKwh, min_def, abs]

/-- C3 amended: on the worked example the code yields total charged
1.6 kWh (= 1.0 + 0.6), total discharged 0.5 kWh, total wasted 2.4 kWh,
and final state of charge 0.94 kWh
(= 0.9·1.0 + 0.9·0.6 − 0.5). -/
theorem battery_example_amended :
    (runSim exampleBatParams (initBatState exampleBatParams) exampleSeries).1
      = { stateOfCharge := 47/50
          chargedEnergy := 8/5
          dischargedEnergy := 1/2
          wastedEnergy := 12/5 } := by
  norm_num [runSim, simulateTimestep, initBatState, exampleBatParams, exampleSeries,
    BatParams.minSocKwh, BatParams.maxSocKwh, min_def, abs]

/-- C6: Idempotent reset.  Simulating a series, calling `reset`, then
simulating the same series again gives identical per-step results and
identical cumulative totals (the whole final state, including total
charged, discharged, wasted and final state of charge).  Holds because
`reset` restores exactly the state built by `__init__`. -/
theorem battery_reset_idempotent (p : BatParams) (xs : List (ℚ × ℚ)) :
    runSim p (BatState.reset p (runSim p (initBatState p) xs).1) xs
      = runSim p (initBatState p) xs := rfl

/-- One step of a zero-capacity reservoir from a zero state of charge:
the state of charge stays 0 and the step result is charged 0,
discharged 0, wasted `max(surplus_kwh, 0)`. -/
theorem simulateTimestep_zero_capacity (p : BatParams) (s : BatState) (w dt : ℚ)
    (hcap : p.capacityKwh = 0)
    (hcr : 0 ≤ p.maxChargeRate) (hdr : 0 ≤ p.maxDischargeRate) (hdt : 0 ≤ dt)
    (hsoc : s.stateOfCharge = 0) :
    (simulateTimestep p s w dt).1.stateOfCharge = 0
      ∧ (simulateTimestep p s w dt).2.chargedKwh = 0
      ∧ (simulateTimestep p s w dt).2.dischargedKwh = 0
      ∧ (simulateTimestep p s w dt).2.wastedKwh = max (w / 1000) 0 := by
  have hmin : p.minSocKwh = 0 := by simp [BatParams.minSocKwh, hcap]
  have hmax : p.maxSocKwh = 0 := by simp [BatParams.maxSocKwh, hcap]
  simp only [simulateTimestep, hmin, hmax, hsoc, sub_zero]
  split_ifs with h1 h2
  · have hinner : min (p.maxChargeRate * dt) (0:ℚ) = 0 :=
      min_eq_right (mul_nonneg hcr hdt)
    have hcharge : min (w / 1000) (min (p.maxChargeRate * dt) (0:ℚ)) = 0 := by
      rw [hinner]
      exact min_eq_right h1.le
    simp [hcharge, max_eq_left h1.le]
  · have hinner : min (p.maxDischargeRate * dt) (0:ℚ) = 0 :=
      min_eq_right (mul_nonneg hdr hdt)
    have hdis : min |w / 1000| (min (p.maxDischargeRate * dt) (0:ℚ)) = 0 := by
      rw [hinner]
      exact min_eq_right (abs_nonneg _)
    simp [hdis, max_eq_right h2.le]
    exact mul_nonneg hdr hdt
  · have hzero : w / 1000 = 0 := le_antisymm (not_lt.1 h1) (not_lt.1 h2)
    simp [hzero, hsoc]

/-- C7: Zero-capacity degeneracy.  A `StorageSimulation` constructed with
`capacity_kwh = 0` (non-negative rates, non-negative step durations)
returns `charged_kwh = 0` and `discharged_kwh = 0` on every step of any
series; each step's `wasted_kwh` is `max(surplus_kwh, 0)`, so every
positive surplus is wasted in full and every deficit stays unmet. -/
theorem battery_zero_capacity (p : BatParams) (hcap : p.capacityKwh = 0)
    (hcr : 0 ≤ p.maxChargeRate) (hdr : 0 ≤ p.maxDischargeRate) :
    ∀ (xs : List (ℚ × ℚ)), (∀ x ∈ xs, 0 ≤ x.2) →
      ∀ pr ∈ xs.zip (runSim p (initBatState p) xs).2,
        pr.2.chargedKwh = 0 ∧ pr.2.dischargedKwh = 0
          ∧ pr.2.wastedKwh = max (pr.1.1 / 1000) 0 := by
  have hmin : p.minSocKwh = 0 := by simp [BatParams.minSocKwh, hcap]
  suffices h : ∀ (xs : List (ℚ × ℚ)) (s : BatState), (∀ x ∈ xs, 0 ≤ x.2) →
      s.stateOfCharge = 0 →
      ∀ pr ∈ xs.zip (runSim p s xs).2,
        pr.2.chargedKwh = 0 ∧ pr.2.dischargedKwh = 0
          ∧ pr.2.wastedKwh = max (pr.1.1 / 1000) 0 by
    intro xs hdt
    exact h xs (initBatState p) hdt (by simp [initBatState, hmin])
  intro xs
  induction xs with
  | nil => intro s _ _ pr hpr; simp [runSim] at hpr
  | cons x xs ih =>
    intro s hdt hsoc pr hpr
    have hstep := simulateTimestep_zero_capacity p s x.1 x.2 hcap hcr hdr
      (hdt x (List.mem_cons_self x xs)) hsoc
    simp only [runSim, List.zip_cons_cons, List.mem_cons] at hpr
    rcases hpr with hpr | hpr
    · subst hpr
      exact ⟨hstep.2.1, hstep.2.2.1, hstep.2.2.2⟩
    · exact ih (simulateTimestep p s x.1 x.2).1
        (fun y hy => hdt y (List.mem_cons_of_mem x hy)) hstep.1 pr hpr

/-- Configuration with zero capacity used to witness C7. -/
def zeroCapParams : BatParams :=
  { capacityKwh := 0
    efficiency := 9/10
    maxChargeRate := 1
    maxDischargeRate := 1
    minSocPercent := 0
    maxSocPercent := 100 }

/-- Witness for C7: with capacity 0, a +1000 Wh step charges nothing and
wastes the full 1 kWh. -/
theorem battery_zero_capacity_witness :
    (0 : ℚ) = 0 ∧ (0 : ℚ) = 0 ∧ (1 : ℚ) = max ((1000 : ℚ) / 1000) 0 := by
  have h := battery_zero_capacity zeroCapParams (by norm_num [zeroCapParams])
    (by norm_num [zeroCapParams]) (by norm_num [zeroCapParams])
    [(1000, 1), (-500, 1)] (by norm_num)
    ((1000, 1), { stateOfCharge := 0, chargedKwh := 0, dischargedKwh := 0, wastedKwh := 1 })
  refine h ?_
  norm_num [runSim, simulateTimestep, initBatState, zeroCapParams,
    BatParams.minSocKwh, BatParams.maxSocKwh, min_def, abs, List.zip]

/-- Boolean success test for an `Except` value. -/
def exceptOk {α : Type} : Except String α → Bool
  | Except.ok _ => true
  | Except.error _ => false

/-- C10 (implicit): unguarded final-SoC percentage in `get_results`.
After simulating any series, `get_results` returns
`final_soc_percent = state_of_charge / capacity_kwh * 100` whenever
`capacity_kwh ≠ 0`, and fails with a division error when
`capacity_kwh = 0` — even though `simulate_timestep` itself tolerates
that configuration. -/
theorem get_results_final_soc (p : BatParams) (xs : List (ℚ × ℚ)) :
    (p.capacityKwh ≠ 0 →
      getResults p (runSim p (initBatState p) xs).1
        = Except.ok
            { totalChargedKwh := (runSim p (initBatState p) xs).1.chargedEnergy
              totalDischargedKwh := (runSim p (initBatState p) xs).1.dischargedEnergy
              totalWastedKwh := (runSim p (initBatState p) xs).1.wastedEnergy
              finalSocKwh := (runSim p (initBatState p) xs).1.stateOfCharge
              finalSocPercent :=
                (runSim p (initBatState p) xs).1.stateOfCharge / p.capacityKwh * 100 })
    ∧ (p.capacityKwh = 0 →
        exceptOk (getResults p (runSim p (initBatState p) xs).1) = false) := by
  constructor
  · intro h
    simp [getResults, ediv, h]
  · intro h
    simp [getResults, ediv, h, exceptOk]

/-- Witness for C10: on the worked example (capacity 1.5 kWh) the final
SoC percentage is (0.94 / 1.5) · 100; with capacity 0 `get_results`
fails. -/
theorem get_results_final_soc_witness :
    getResults exampleBatParams
        (runSim exampleBatParams (initBatState exampleBatParams) exampleSeries).1
      = Except.ok
          { totalChargedKwh :=
              (runSim exampleBatParams (initBatState exampleBatParams) exampleSeries).1.chargedEnergy
            totalDischargedKwh :=
              (runSim exampleBatParams (initBatState exampleBatParams) exampleSeries).1.dischargedEnergy
            totalWastedKwh :=
              (runSim exampleBatParams (initBatState exampleBatParams) exampleSeries).1.wastedEnergy
            finalSocKwh :=
              (runSim exampleBatParams (initBatState exampleBatParams) exampleSeries).1.stateOfCharge
            finalSocPercent :=
              (runSim exampleBatParams (initBatState exampleBatParams) exampleSeries).1.stateOfCharge
                / exampleBatParams.capacityKwh * 100 }
      ∧ exceptOk (getResults zeroCapParams
          (runSim zeroCapParams (initBatState zeroCapParams) exampleSeries).1) = false := by
  constructor
  · exact (get_results_final_soc exampleBatParams exampleSeries).1
      (by norm_num [exampleBatParams])
  · exact (get_results_final_soc zeroCapParams exampleSeries).2
      (by norm_num [zeroCapParams])

/-! ### BoilerCalculator (src/boiler_module.py) -/

/-- `self.specific_heat_capacity = 0.00116` kWh/L/°C. -/
def specificHeatCapacity : ℚ := 29/25000

/-- Configuration fields read by `BoilerCalculator`; `standbyLoss` is the
configured percentage already divided by 100 (as in `__init__`), and
`profile` returns the hourly usage fraction with default 0
(`self.hourly_usage_profile.get(hour_of_day, 0.0)`). -/
structure BoilParams where
  capacity : ℚ
  efficiency : ℚ
  waterTempRise : ℚ
  dailyUsage : ℚ
  standbyLoss : ℚ
  coldWaterTemp : ℚ
  profile : ℕ → ℚ

/-- `max_temp = water_temp + self.water_temp_rise` with
`water_temp = cold` at start of `calculate`. -/
def BoilParams.maxTemp (p : BoilParams) : ℚ :=
  p.coldWaterTemp + p.waterTempRise

/-- `BoilerCalculator._get_interval_hot_water_usage` (lines 224-241). -/
def intervalHotWaterUsage (p : BoilParams) (hourOfDay : ℕ) (intervalHours : ℚ) : ℚ :=
  p.dailyUsage * p.profile hourOfDay * intervalHours

/-- `BoilerCalculator._calculate_interval_heat_loss` (lines 243-267). -/
def intervalHeatLoss (p : BoilParams) (waterTemp waterVolume intervalHours : ℚ) : ℚ :=
  if waterVolume ≤ 0 ∨ waterTemp ≤ p.coldWaterTemp then 0
  else waterVolume * specificHeatCapacity * (waterTemp - p.coldWaterTemp)
    * (p.standbyLoss / 24) * intervalHours

/-- Loop-carried state of the `calculate` loop.  `enwe` models the Python
local `energy_needed_with_efficiency`, which is only assigned inside the
`if hot_water_usage > 0` branch: `none` means it has never been assigned,
so reading it raises `UnboundLocalError`. -/
structure BoilState where
  waterTemp : ℚ
  enwe : Option ℚ

/-- Per-row outputs recorded in `result_df`. -/
structure BoilStep where
  waterTemp : ℚ
  energyUsedKwh : ℚ
  heatLossKwh : ℚ

/-- Lines 119-122: standby heat-loss temperature update, floored at the
cold-water temperature, only when the volume is positive. -/
def tempAfterLoss (p : BoilParams) (t dt : ℚ) : ℚ :=
  let heatLoss := intervalHeatLoss p t p.capacity dt
  if 0 < p.capacity then
    max (t - heatLoss / (p.capacity * specificHeatCapacity)) p.coldWaterTemp
  else t

/-- Lines 124-142: reheat-energy bookkeeping and first use of surplus.
Returns the (possibly unchanged) `energy_needed_with_efficiency`
binding and the `energy_used` after line 142. -/
def usageBranch (p : BoilParams) (prev : Option ℚ) (usage surplus : ℚ) :
    Option ℚ × ℚ :=
  if 0 < usage then
    let energyNeeded := usage * specificHeatCapacity * (p.maxTemp - p.coldWaterTemp)
    let enwe := energyNeeded / p.efficiency
    (some enwe, if 0 < energyNeeded then min (max 0 surplus) enwe else 0)
  else (prev, 0)

/-- Lines 144-155: remaining surplus heats the whole volume, clamped at
`max_temp`.  Returns the temperature and accumulated `energy_used`. -/
def bulkHeating (p : BoilParams) (temp1 eu0 surplus : ℚ) : ℚ × ℚ :=
  if eu0 < surplus ∧ temp1 < p.maxTemp then
    let additionalHeating := p.capacity * specificHeatCapacity * (p.maxTemp - temp1)
    let additionalUsed := min (surplus - eu0) additionalHeating
    let temp2 :=
      if 0 < p.capacity then
        min (temp1 + additionalUsed / (p.capacity * specificHeatCapacity)) p.maxTemp
      else temp1
    (temp2, eu0 + additionalUsed)
  else (temp1, eu0)

/-- One iteration of the `calculate` loop (lines 107-166) for a row with
the given hour of day and surplus (kWh).  Line 163 reads
`energy_needed_with_efficiency` unconditionally, so the step fails
(`none` = `UnboundLocalError`) when the variable was never assigned. -/
def boilerStep (p : BoilParams) (s : BoilState) (hourOfDay : ℕ)
    (surplus dt : ℚ) : Option (BoilState × BoilStep) :=
  let usage := intervalHotWaterUsage p hourOfDay dt
  let heatLoss := intervalHeatLoss p s.waterTemp p.capacity dt
  let temp1 := tempAfterLoss p s.waterTemp dt
  let br := usageBranch p s.enwe usage surplus
  let heated := bulkHeating p temp1 br.2 surplus
  match br.1 with
  | none => none
  | some v =>
      let tempFinal := if v ≤ heated.2 then p.maxTemp else heated.1
      some ({ waterTemp := tempFinal, enwe := some v },
            { waterTemp := tempFinal, energyUsedKwh := heated.2, heatLossKwh := heatLoss })

/-- State at the top of the `calculate` loop: water at cold-inlet
temperature, `energy_needed_with_efficiency` unbound. -/
def initBoilState (p : BoilParams) : BoilState :=
  { waterTemp := p.coldWaterTemp, enwe := none }

/-- The whole `calculate` loop over the rows (hour of day, surplus kWh),
with the fixed per-run `interval_hours`.  Fails as soon as one row
fails. -/
def runBoiler (p : BoilParams) (dt : ℚ) :
    BoilState → List (ℕ × ℚ) → Option (BoilState × List BoilStep)
  | s, [] => some (s, [])
  | s, x :: xs =>
    match boilerStep p s x.1 x.2 dt with
    | none => none
    | some sr =>
      match runBoiler p dt sr.1 xs with
      | none => none
      | some rest => some (rest.1, sr.2 :: rest.2)

/-- `BoilerCalculator._default_usage_profile` (lines 301-323). -/
def defaultUsageProfile : ℕ → ℚ := fun h =>
  if h = 5 then 1/20 else if h = 6 then 3/20 else if h = 7 then 1/5
  else if h = 8 then 1/10 else if h = 9 then 1/20 else if h = 12 then 1/20
  else if h = 17 then 1/20 else if h = 18 then 1/20 else if h = 19 then 1/20
  else if h = 20 then 1/10 else if h = 21 then 1/10 else if h = 22 then 1/20
  else 0

/-- The default boiler configuration from `__init__`: capacity 80 L,
efficiency 0.9, temperature rise 35 °C, daily usage 120 L, standby loss
0.5 %/day, cold water 10 °C, default hourly profile. -/
def defaultBoilParams : BoilParams :=
  { capacity := 80
    efficiency := 9/10
    waterTempRise := 35
    dailyUsage := 120
    standbyLoss := 1/200
    coldWaterTemp := 10
    profile := defaultUsageProfile }

/-! ### Lemmas about the boiler step -/

/-- Heat loss is non-negative for non-negative standby-loss rate and
interval. -/
theorem intervalHeatLoss_nonneg (p : BoilParams) (t vol dt : ℚ)
    (hsb : 0 ≤ p.standbyLoss) (hdt : 0 ≤ dt) :
    0 ≤ intervalHeatLoss p t vol dt := by
  unfold intervalHeatLoss
  split_ifs with h
  · exact le_refl 0
  · push_neg at h
    have hshc : (0:ℚ) ≤ specificHeatCapacity := by norm_num [specificHeatCapacity]
    exact mul_nonneg
      (mul_nonneg
        (mul_nonneg (mul_nonneg h.1.le hshc) (by linarith [h.2]))
        (by linarith))
      hdt

/-- The cold-inlet temperature is below the derived maximum whenever the
configured rise is non-negative. -/
theorem coldWaterTemp_le_maxTemp (p : BoilParams) (hrise : 0 ≤ p.waterTempRise) :
    p.coldWaterTemp ≤ p.maxTemp := by
  unfold BoilParams.maxTemp
  linarith

/-- The standby-loss update keeps the temperature inside
`[cold, max_temp]`. -/
theorem tempAfterLoss_bounds (p : BoilParams) (t dt : ℚ)
    (hrise : 0 ≤ p.waterTempRise) (hsb : 0 ≤ p.standbyLoss) (hdt : 0 ≤ dt)
    (hlo : p.coldWaterTemp ≤ t) (hhi : t ≤ p.maxTemp) :
    p.coldWaterTemp ≤ tempAfterLoss p t dt ∧ tempAfterLoss p t dt ≤ p.maxTemp := by
  unfold tempAfterLoss
  split_ifs with hcap
  · refine ⟨le_max_right _ _, max_le ?_ (coldWaterTemp_le_maxTemp p hrise)⟩
    have hshc : (0:ℚ) < specificHeatCapacity := by norm_num [specificHeatCapacity]
    have hpos : 0 < p.capacity * specificHeatCapacity := mul_pos hcap hshc
    have hloss := intervalHeatLoss_nonneg p t p.capacity dt hsb hdt
    have : 0 ≤ intervalHeatLoss p t p.capacity dt / (p.capacity * specificHeatCapacity) :=
      div_nonneg hloss hpos.le
    linarith
  · exact ⟨hlo, hhi⟩

/-- The bulk-heating update keeps the temperature inside
`[cold, max_temp]`. -/
theorem bulkHeating_bounds (p : BoilParams) (temp1 eu0 surplus : ℚ)
    (hrise : 0 ≤ p.waterTempRise)
    (hlo : p.coldWaterTemp ≤ temp1) (hhi : temp1 ≤ p.maxTemp) :
    p.coldWaterTemp ≤ (bulkHeating p temp1 eu0 surplus).1
      ∧ (bulkHeating p temp1 eu0 surplus).1 ≤ p.maxTemp := by
  unfold bulkHeating
  split_ifs with h hcap
  · have hshc : (0:ℚ) < specificHeatCapacity := by norm_num [specificHeatCapacity]
    have hpos : 0 < p.capacity * specificHeatCapacity := mul_pos hcap hshc
    have hheat : 0 ≤ p.capacity * specificHeatCapacity * (p.maxTemp - temp1) :=
      mul_nonneg hpos.le (by linarith [h.2])
    have hused : 0 ≤ min (surplus - eu0) (p.capacity * specificHeatCapacity * (p.maxTemp - temp1)) :=
      le_min (by linarith [h.1]) hheat
    have hdiv : 0 ≤ min (surplus - eu0) (p.capacity * specificHeatCapacity * (p.maxTemp - temp1))
        / (p.capacity * specificHeatCapacity) := div_nonneg hused hpos.le
    exact ⟨le_min (by linarith) (coldWaterTemp_le_maxTemp p hrise), min_le_right _ _⟩
  · exact ⟨hlo, hhi⟩
  · exact ⟨hlo, hhi⟩

/-- A successful `calculate`-loop iteration keeps the water temperature
inside `[cold, max_temp]`, and records that temperature in the result
row. -/
theorem boilerStep_temp_bounds (p : BoilParams) (s : BoilState) (hour : ℕ)
    (surplus dt : ℚ)
    (hrise : 0 ≤ p.waterTempRise) (hsb : 0 ≤ p.standbyLoss) (hdt : 0 ≤ dt)
    (hlo : p.coldWaterTemp ≤ s.waterTemp) (hhi : s.waterTemp ≤ p.maxTemp)
    (sr : BoilState × BoilStep) (h : boilerStep p s hour surplus dt = some sr) :
    (p.coldWaterTemp ≤ sr.1.waterTemp ∧ sr.1.waterTemp ≤ p.maxTemp)
      ∧ sr.2.waterTemp = sr.1.waterTemp := by
  have ht1 := tempAfterLoss_bounds p s.waterTemp dt hrise hsb hdt hlo hhi
  have hbulk := bulkHeating_bounds p (tempAfterLoss p s.waterTemp dt)
    (usageBranch p s.enwe (intervalHotWaterUsage p hour dt) surplus).2 surplus
    hrise ht1.1 ht1.2
  unfold boilerStep at h
  dsimp only at h
  rcases hb : (usageBranch p s.enwe (intervalHotWaterUsage p hour dt) surplus).1 with _ | v
  · rw [hb] at h
    simp at h
  · rw [hb] at h
    dsimp only at h
    simp only [Option.some.injEq] at h
    subst h
    refine ⟨?_, rfl⟩
    simp only
    split_ifs with hc
    · exact ⟨coldWaterTemp_le_maxTemp p hrise, le_rfl⟩
    · exact hbulk

/-- A successful run of the whole loop keeps every intermediate and final
water temperature inside `[cold, max_temp]`. -/
theorem runBoiler_temp_bounds (p : BoilParams) (dt : ℚ)
    (hrise : 0 ≤ p.waterTempRise) (hsb : 0 ≤ p.standbyLoss) (hdt : 0 ≤ dt) :
    ∀ (xs : List (ℕ × ℚ)) (s : BoilState),
      p.coldWaterTemp ≤ s.waterTemp → s.waterTemp ≤ p.maxTemp →
      ∀ res, runBoiler p dt s xs = some res →
        (p.coldWaterTemp ≤ res.1.waterTemp ∧ res.1.waterTemp ≤ p.maxTemp)
          ∧ ∀ r ∈ res.2, p.coldWaterTemp ≤ r.waterTemp ∧ r.waterTemp ≤ p.maxTemp := by
  intro xs
  induction xs with
  | nil =>
    intro s hlo hhi res hres
    simp only [runBoiler, Option.some.injEq] at hres
    subst hres
    exact ⟨⟨hlo, hhi⟩, by simp⟩
  | cons x xs ih =>
    intro s hlo hhi res hres
    simp only [runBoiler] at hres
    rcases hstep : boilerStep p s x.1 x.2 dt with _ | sr
    · rw [hstep] at hres
      simp at hres
    · rw [hstep] at hres
      dsimp only at hres
      have hb := boilerStep_temp_bounds p s x.1 x.2 dt hrise hsb hdt hlo hhi sr hstep
      rcases hrest : runBoiler p dt sr.1 xs with _ | rest
      · rw [hrest] at hres
        simp at hres
      · rw [hrest] at hres
        dsimp only at hres
        simp only [Option.some.injEq] at hres
        subst hres
        have hr := ih sr.1 hb.1.1 hb.1.2 rest hrest
        refine ⟨hr.1, ?_⟩
        intro r hmem
        simp only [List.mem_cons] at hmem
        rcases hmem with hmem | hmem
        · subst hmem
          rw [hb.2]
          exact hb.1
        · exact hr.2 r hmem

/-! ### Claim theorems: boiler -/

/-- C4: evaluation at the failing input.  With the default configuration,
a first data row at hour 0 (draw-off profile fraction 0) with zero
surplus makes `BoilerCalculator.calculate` fail: line 163 reads the
local `energy_needed_with_efficiency`, which has never been assigned, so
Python raises `UnboundLocalError` instead of completing the step with
only the standby-loss temperature drop as the claim (and the spec)
requires. -/
theorem boiler_zero_drawoff_first_interval_raises :
    runBoiler defaultBoilParams (1/4) (initBoilState defaultBoilParams) [(0, 0)]
      = none := by
  norm_num [runBoiler, boilerStep, usageBranch, intervalHotWaterUsage,
    defaultBoilParams, defaultUsageProfile, initBoilState]

/-- C5: Thermal temperature invariant.  For every boiler run that
completes and every interval, the recorded water temperature lies in
`[cold-inlet, cold-inlet + rise]`, for arbitrary (arbitrarily large)
non-negative standby-loss rates and arbitrary draw-off profiles and
daily usage, under the claim's precondition of a non-negative
temperature rise (plus non-negative step duration and positive
efficiency, the ranges in which the embedding is faithful). -/
theorem boiler_temperature_invariant (p : BoilParams) (dt : ℚ)
    (xs : List (ℕ × ℚ))
    (hrise : 0 ≤ p.waterTempRise) (hsb : 0 ≤ p.standbyLoss) (hdt : 0 ≤ dt)
    (heff : 0 < p.efficiency)
    (res : BoilState × List BoilStep)
    (hrun : runBoiler p dt (initBoilState p) xs = some res) :
    (p.coldWaterTemp ≤ res.1.waterTemp ∧ res.1.waterTemp ≤ p.maxTemp)
      ∧ ∀ r ∈ res.2, p.coldWaterTemp ≤ r.waterTemp ∧ r.waterTemp ≤ p.maxTemp :=
  runBoiler_temp_bounds p dt hrise hsb hdt xs (initBoilState p)
    le_rfl (coldWaterTemp_le_maxTemp p hrise) res hrun

/-- Witness for C5: with the default configuration, one interval at hour
8 with 1 kWh surplus completes with water temperature 45 °C, inside
`[10, 45]`. -/
theorem boiler_temperature_invariant_witness :
    defaultBoilParams.coldWaterTemp ≤ (45:ℚ)
      ∧ (45:ℚ) ≤ defaultBoilParams.maxTemp := by
  have h := boiler_temperature_invariant defaultBoilParams (1/4) [(8, 1)]
    (by norm_num [defaultBoilParams]) (by norm_num [defaultBoilParams])
    (by norm_num) (by norm_num [defaultBoilParams])
    ({ waterTemp := 45, enwe := some (203/1500) },
     [{ waterTemp := 45, energyUsedKwh := 1, heatLossKwh := 0 }])
    (by norm_num [runBoiler, boilerStep, usageBranch, bulkHeating, tempAfterLoss,
      intervalHotWaterUsage, intervalHeatLoss, specificHeatCapacity,
      defaultBoilParams, defaultUsageProfile, initBoilState, BoilParams.maxTemp,
      min_def, max_def])
  exact h.2 { waterTemp := 45, energyUsedKwh := 1, heatLossKwh := 0 }
    (List.mem_singleton_self _)

/-! ### Time aggregation (battery lines 292-340, boiler lines 325-368) -/

/-- Sum of a column over the rows of one group, as
`df.groupby(period)[cols].sum()` computes it for the group `k`. -/
def groupSum {α : Type} (key : α → ℕ) (f : α → ℚ) (k : ℕ) (rows : List α) : ℚ :=
  ((rows.filter (fun r => key r == k)).map f).sum

/-- The pandas ratio derivation
`(n / d * 100).replace([np.inf, -np.inf], 0).fillna(0)` on exact
arithmetic: `n / d` is finite for `d ≠ 0`; for `d = 0` it is `±inf`
(replaced by 0) or `NaN` (filled with 0). -/
def pctOrZero (n d : ℚ) : ℚ :=
  if d = 0 then 0 else n / d * 100

/-- One per-interval battery result row, with its aggregation key
(calendar day / ISO week / month) already derived from the timestamp. -/
structure BatAggRow where
  period : ℕ
  surplusEnergyKwh : ℚ
  chargedKwh : ℚ
  dischargedKwh : ℚ

/-- `agg_df [storage_utilization]` for group `k`
(battery line 335). -/
def storageUtilization (k : ℕ) (rows : List BatAggRow) : ℚ :=
  pctOrZero (groupSum BatAggRow.period BatAggRow.chargedKwh k rows)
    (groupSum BatAggRow.period BatAggRow.surplusEnergyKwh k rows)

/-- `agg_df [round_trip_efficiency]` for group `k`
(battery line 338). -/
def roundTripEfficiency (k : ℕ) (rows : List BatAggRow) : ℚ :=
  pctOrZero (groupSum BatAggRow.period BatAggRow.dischargedKwh k rows)
    (groupSum BatAggRow.period BatAggRow.chargedKwh k rows)

/-- One per-interval boiler result row with its aggregation key. -/
structure BoilAggRow where
  period : ℕ
  surplusEnergyKwh : ℚ
  energyUsedKwh : ℚ
  energyNeededKwh : ℚ

/-- `agg_df [surplus_utilization]` for group `k` (boiler line 365). -/
def surplusUtilization (k : ℕ) (rows : List BoilAggRow) : ℚ :=
  pctOrZero (groupSum BoilAggRow.period BoilAggRow.energyUsedKwh k rows)
    (groupSum BoilAggRow.period BoilAggRow.surplusEnergyKwh k rows)

/-- `agg_df [heating_coverage]` for group `k` (boiler line 366). -/
def heatingCoverage (k : ℕ) (rows : List BoilAggRow) : ℚ :=
  pctOrZero (groupSum BoilAggRow.period BoilAggRow.energyUsedKwh k rows)
    (groupSum BoilAggRow.period BoilAggRow.energyNeededKwh k rows)

/-- A column that is zero on every row sums to zero in every group. -/
theorem groupSum_eq_zero {α : Type} (key : α → ℕ) (f : α → ℚ) (k : ℕ)
    (rows : List α) (h : ∀ r ∈ rows, f r = 0) :
    groupSum key f k rows = 0 := by
  unfold groupSum
  apply List.sum_eq_zero
  intro x hx
  simp only [List.mem_map] at hx
  obtain ⟨r, hr, rfl⟩ := hx
  exact h r (List.mem_of_mem_filter hr)

/-- C9: Aggregated ratio clipping.  For every aggregated period the
utilization is re-derived from the grouped sums as charged/surplus × 100
(boiler: used/surplus × 100) and the round-trip/coverage ratio as
discharged/charged × 100 (boiler: used/needed × 100); whenever the
denominator sum is 0 the reported ratio is exactly 0, and in particular
a series whose surplus is 0 everywhere reports utilization 0 in every
period. -/
theorem aggregation_ratio_clipping (rows : List BatAggRow)
    (brows : List BoilAggRow) (k : ℕ) :
    (groupSum BatAggRow.period BatAggRow.surplusEnergyKwh k rows ≠ 0 →
      storageUtilization k rows
        = groupSum BatAggRow.period BatAggRow.chargedKwh k rows
            / groupSum BatAggRow.period BatAggRow.surplusEnergyKwh k rows * 100)
    ∧ (groupSum BatAggRow.period BatAggRow.surplusEnergyKwh k rows = 0 →
        storageUtilization k rows = 0)
    ∧ (groupSum BatAggRow.period BatAggRow.chargedKwh k rows = 0 →
        roundTripEfficiency k rows = 0)
    ∧ (groupSum BoilAggRow.period BoilAggRow.surplusEnergyKwh k brows = 0 →
        surplusUtilization k brows = 0)
    ∧ (groupSum BoilAggRow.period BoilAggRow.energyNeededKwh k brows = 0 →
        heatingCoverage k brows = 0)
    ∧ ((∀ r ∈ rows, r.surplusEnergyKwh = 0) → storageUtilization k rows = 0)
    ∧ ((∀ r ∈ brows, r.surplusEnergyKwh = 0) → surplusUtilization k brows = 0) := by
  refine ⟨?_, ?_, ?_, ?_, ?_, ?_, ?_⟩
  · intro h
    simp [storageUtilization, pctOrZero, h]
  · intro h
    simp [storageUtilization, pctOrZero, h]
  · intro h
    simp [roundTripEfficiency, pctOrZero, h]
  · intro h
    simp [surplusUtilization, pctOrZero, h]
  · intro h
    simp [heatingCoverage, pctOrZero, h]
  · intro h
    have := groupSum_eq_zero BatAggRow.period BatAggRow.surplusEnergyKwh k rows h
    simp [storageUtilization, pctOrZero, this]
  · intro h
    have := groupSum_eq_zero BoilAggRow.period BoilAggRow.surplusEnergyKwh k brows h
    simp [surplusUtilization, pctOrZero, this]

/-- A battery result row with zero surplus but positive charged energy,
used to witness C9. -/
def zeroSurplusBatRow : BatAggRow :=
  { period := 0, surplusEnergyKwh := 0, chargedKwh := 5, dischargedKwh := 3 }

/-- A boiler result row with zero surplus but positive used energy, used
to witness C9. -/
def zeroSurplusBoilRow : BoilAggRow :=
  { period := 0, surplusEnergyKwh := 0, energyUsedKwh := 2, energyNeededKwh := 4 }

/-- Witness for C9: a one-row group with surplus 0 and positive charged
energy reports both utilization ratios as exactly 0. -/
theorem aggregation_ratio_clipping_witness :
    storageUtilization 0 [zeroSurplusBatRow] = 0
      ∧ surplusUtilization 0 [zeroSurplusBoilRow] = 0 := by
  constructor
  · exact (aggregation_ratio_clipping [zeroSurplusBatRow] [] 0).2.1
      (by norm_num [groupSum, zeroSurplusBatRow])
  · exact (aggregation_ratio_clipping [] [zeroSurplusBoilRow] 0).2.2.2.1
      (by norm_num [groupSum, zeroSurplusBoilRow])

/-! ### Financial / ROI block (battery lines 173-229, boiler lines 176-178) -/

/-- A guarded division succeeds with the exact quotient. -/
theorem ediv_ok (n d : ℚ) (h : d ≠ 0) : ediv n d = Except.ok (n / d) := by
  simp [ediv, h]

/-- Battery line 174-177:
`storage_utilization = (total_charged / total_surplus) * 100 if
total_surplus > 0 else 0`. -/
def batStorageUtilBlock (totalCharged totalSurplus : ℚ) : Except String ℚ :=
  if 0 < totalSurplus then
    Except.map (fun r => r * 100) (ediv totalCharged totalSurplus)
  else Except.ok 0

/-- Battery lines 207-215: annual savings, payback years and ROI percent.
`float(inf)` is modelled by `none`. -/
def batAnnualBlock (totalSavings dataDays installationCost : ℚ) :
    Except String (ℚ × Option ℚ × ℚ) :=
  if 0 < dataDays then
    Except.bind (ediv 365 dataDays) (fun f =>
      let annualSavings := totalSavings * f
      Except.bind
        (if 0 < annualSavings then Except.map some (ediv installationCost annualSavings)
         else Except.ok none)
        (fun payback =>
          Except.bind
            (if 0 < installationCost
             then Except.map (fun r => r * 100) (ediv annualSavings installationCost)
             else Except.ok 0)
            (fun roi => Except.ok (annualSavings, payback, roi))))
  else Except.ok (0, none, 0)

/-- Battery lines 217-229: daily cycles, years to cycle limit (`none` =
`float(inf)`) and estimated lifetime `min(years_to_cycle_limit,
expected_lifetime)` (the minimum of infinity and `x` is `x`). -/
def batDegradationBlock (cycleCount dataDays expectedCycles expectedLifetime : ℚ) :
    Except String (ℚ × Option ℚ × ℚ) :=
  if 0 < expectedCycles then
    Except.bind (if 0 < dataDays then ediv cycleCount dataDays else Except.ok 0)
      (fun dailyCycles =>
        Except.bind
          (if 0 < dailyCycles then Except.map some (ediv expectedCycles (dailyCycles * 365))
           else Except.ok none)
          (fun years =>
            Except.ok (dailyCycles, years,
              match years with
              | none => expectedLifetime
              | some y => min y expectedLifetime)))
  else Except.ok (0, none, expectedLifetime)

/-- Boiler lines 176-178: surplus-utilization and heating-efficiency
percentages, each guarded by `if ... > 0 else 0`. -/
def boilerUtilBlock (totalUsed totalSurplus totalNeeded : ℚ) :
    Except String (ℚ × ℚ) :=
  Except.bind
    (if 0 < totalSurplus then Except.map (fun r => r * 100) (ediv totalUsed totalSurplus)
     else Except.ok 0)
    (fun u =>
      Except.bind
        (if 0 < totalNeeded then Except.map (fun r => r * 100) (ediv totalUsed totalNeeded)
         else Except.ok 0)
        (fun h => Except.ok (u, h)))

/-- Binding a successful computation with an everywhere-successful
continuation succeeds. -/
theorem exceptOk_bind {a b : Type} (x : Except String a) (f : a → Except String b)
    (hx : exceptOk x = true) (hf : ∀ v, exceptOk (f v) = true) :
    exceptOk (Except.bind x f) = true := by
  cases x with
  | error e => simp [exceptOk] at hx
  | ok v => simpa [Except.bind] using hf v

/-- Mapping over a successful computation succeeds. -/
theorem exceptOk_map {a b : Type} (g : a → b) (x : Except String a)
    (hx : exceptOk x = true) : exceptOk (Except.map g x) = true := by
  cases x with
  | error e => simp [exceptOk] at hx
  | ok v => simp [Except.map, exceptOk]

/-- A division with non-zero denominator succeeds. -/
theorem exceptOk_ediv (n d : ℚ) (h : d ≠ 0) : exceptOk (ediv n d) = true := by
  rw [ediv_ok n d h]
  rfl

/-- A conditional whose branches both succeed succeeds. -/
theorem exceptOk_ite {a : Type} (c : Prop) [Decidable c] (x y : Except String a)
    (hx : c → exceptOk x = true) (hy : ¬c → exceptOk y = true) :
    exceptOk (if c then x else y) = true := by
  split_ifs with h
  · exact hx h
  · exact hy h

/-- C8: Division-by-zero sentinel policy.  Every division in the
financial/ROI blocks of `BatteryCalculator.calculate` (lines 173-229)
and `BoilerCalculator.calculate` (lines 176-178) is guarded, so the
blocks complete without a division error for all inputs, and the
degenerate denominators (zero total surplus, zero days spanned, zero
expected cycles, zero energy needed) produce 0 or the infinite-payback
sentinel. -/
theorem financial_division_guards
    (totalCharged totalSurplus totalSavings dataDays installationCost
      cycleCount expectedCycles expectedLifetime totalUsed totalSurplusB
      totalNeeded : ℚ) :
    exceptOk (batStorageUtilBlock totalCharged totalSurplus) = true
    ∧ exceptOk (batAnnualBlock totalSavings dataDays installationCost) = true
    ∧ exceptOk (batDegradationBlock cycleCount dataDays expectedCycles
        expectedLifetime) = true
    ∧ exceptOk (boilerUtilBlock totalUsed totalSurplusB totalNeeded) = true
    ∧ batStorageUtilBlock totalCharged 0 = Except.ok 0
    ∧ batAnnualBlock totalSavings 0 installationCost = Except.ok (0, none, 0)
    ∧ batDegradationBlock cycleCount dataDays 0 expectedLifetime
        = Except.ok (0, none, expectedLifetime)
    ∧ boilerUtilBlock totalUsed 0 0 = Except.ok (0, 0) := by
  refine ⟨?_, ?_, ?_, ?_, ?_, ?_, ?_, ?_⟩
  · unfold batStorageUtilBlock
    refine exceptOk_ite _ _ _ (fun h => ?_) (fun _ => rfl)
    exact exceptOk_map _ _ (exceptOk_ediv _ _ (ne_of_gt h))
  · unfold batAnnualBlock
    refine exceptOk_ite _ _ _ (fun h => ?_) (fun _ => rfl)
    refine exceptOk_bind _ _ (exceptOk_ediv _ _ (ne_of_gt h)) (fun f => ?_)
    refine exceptOk_bind _ _
      (exceptOk_ite _ _ _ (fun h1 => exceptOk_map _ _ (exceptOk_ediv _ _ (ne_of_gt h1)))
        (fun _ => rfl))
      (fun payback => ?_)
    refine exceptOk_bind _ _
      (exceptOk_ite _ _ _ (fun h2 => exceptOk_map _ _ (exceptOk_ediv _ _ (ne_of_gt h2)))
        (fun _ => rfl))
      (fun roi => rfl)
  · unfold batDegradationBlock
    refine exceptOk_ite _ _ _ (fun h => ?_) (fun _ => rfl)
    refine exceptOk_bind _ _
      (exceptOk_ite _ _ _ (fun h1 => exceptOk_ediv _ _ (ne_of_gt h1)) (fun _ => rfl))
      (fun dailyCycles => ?_)
    refine exceptOk_bind _ _
      (exceptOk_ite _ _ _
        (fun h2 => exceptOk_map _ _
          (exceptOk_ediv _ _ (mul_ne_zero (ne_of_gt h2) (by norm_num))))
        (fun _ => rfl))
      (fun years => rfl)
  · unfold boilerUtilBlock
    refine exceptOk_bind _ _
      (exceptOk_ite _ _ _ (fun h1 => exceptOk_map _ _ (exceptOk_ediv _ _ (ne_of_gt h1)))
        (fun _ => rfl))
      (fun u => ?_)
    exact exceptOk_bind _ _
      (exceptOk_ite _ _ _ (fun h2 => exceptOk_map _ _ (exceptOk_ediv _ _ (ne_of_gt h2)))
        (fun _ => rfl))
      (fun v => rfl)
  · norm_num [batStorageUtilBlock]
  · norm_num [batAnnualBlock]
  · norm_num [batDegradationBlock]
  · norm_num [boilerUtilBlock, Except.bind]
